import Mathlib

/-
Shallow embedding of the Milesage last-mile optimizer core
(src/data_utils.py, src/vrp_solver.py, src/auto_config.py).

Conventions of the embedding:
* Python floats are modelled as ℚ everywhere the code does exact-looking
  arithmetic on finite data, and as ℝ for the trigonometric haversine formula.
* pandas DataFrames of stops are modelled as `List Stop`, indexed by position.
* numpy matrices are modelled as functions `Nat → Nat → ℚ` (resp. ℝ).
* Python `None` becomes `Option`, `int(x)` becomes truncation toward zero.
* The OR-Tools constraint solver is an external library; it is modelled as an
  oracle `solve : OrtoolsModel → Option (List (List Nat))` returning, per
  vehicle, the sequence of visited nodes between the two depot visits.  The
  constraint model the source code builds (lines 240-320 of vrp_solver.py) is
  embedded declaratively as `ValidSolution`.
-/

unseal Rat.add Rat.mul Rat.sub Rat.inv Rat.ofScientific

/-- One row of the normalized stop table (src/data_utils.py `normalize_dataframe`). -/
structure Stop where
  demand : ℚ
  earliest_time : Option ℚ
  latest_time : Option ℚ
  service_time : ℚ
  is_depot : Bool
deriving DecidableEq

instance : Inhabited Stop := ⟨⟨0, none, none, 0, false⟩⟩

/-- One entry of the `route_details` list returned by both solvers. -/
structure RouteDetail where
  vehicle_id : Nat
  stops : List Nat
  distance : ℚ
  time : ℚ
  demand : ℚ
  n_stops : Nat
deriving DecidableEq

/-- The result dictionary returned by `run_naive_solution` / `run_ortools_solution`. -/
structure VrpResult where
  routes : List (List Nat)
  total_distance : ℚ
  total_time : ℚ
  route_details : List RouteDetail
  n_vehicles_used : Nat
  error : Option String
deriving DecidableEq

/-- `df['demand'].sum()`. -/
def demandSum (df : List Stop) : ℚ := (df.map Stop.demand).sum

/-- The intermediate stops of a route list (everything but the first and last entry). -/
def interiorOf (r : List Nat) : List Nat := (r.drop 1).dropLast

/-- Sum of `f` over consecutive pairs of a list
    (`for i in range(len(route)-1): acc += m[route[i], route[i+1]]`). -/
def pairSum (f : Nat → Nat → ℚ) : List Nat → ℚ
  | a :: b :: rest => f a b + pairSum f (b :: rest)
  | _ => 0

/-- The fixed data threaded through the naive nearest-neighbor heuristic
    (src/vrp_solver.py `run_naive_solution`, lines 42-64). -/
structure NaiveCtx where
  df : List Stop
  dm : Nat → Nat → ℚ
  tm : Nat → Nat → ℚ
  useCap : Bool
  useDur : Bool
  cap : ℚ
  maxDurMin : ℚ
  window : ℚ × ℚ
  depot : Nat

/-- `df.loc[i]` with positional indexing. -/
def stopAt (ctx : NaiveCtx) (i : Nat) : Stop := ctx.df.getD i default

/-- Arrival time at stop `j` coming from `cur` at time `curTime`, waiting until
    the stop's earliest time if necessary (lines 92-100 of vrp_solver.py). -/
def arrivalTime (ctx : NaiveCtx) (curTime : ℚ) (cur j : Nat) : ℚ :=
  let arr0 := curTime + ctx.tm cur j
  match (stopAt ctx j).earliest_time with
  | some e => if arr0 < e then e else arr0
  | none => arr0

/-- The constraint filter applied to a candidate next stop `j`
    (lines 82-112 of vrp_solver.py).  Returns `true` when `j` is acceptable. -/
def feasibleNext (ctx : NaiveCtx) (curCap curTime : ℚ) (cur j : Nat) : Bool :=
  (if ctx.useCap then decide (curCap + (stopAt ctx j).demand ≤ ctx.cap) else true) &&
  (if ctx.useDur then
      let arr := arrivalTime ctx curTime cur j
      (match (stopAt ctx j).latest_time with
       | some l => decide (arr ≤ l)
       | none => true) &&
      (let ret := arr + (stopAt ctx j).service_time + ctx.tm j ctx.depot
       decide (ret ≤ ctx.window.2) && decide (ret - ctx.window.1 ≤ ctx.maxDurMin))
    else true)

/-- The `for next_idx in unvisited` scan keeping the feasible candidate of
    strictly smallest distance (lines 77-118 of vrp_solver.py).  The
    accumulator plays the role of `(best_next, best_distance)`, with `none`
    standing for `best_distance = inf`. -/
def findBestAux (ctx : NaiveCtx) (curCap curTime : ℚ) (cur : Nat) :
    List Nat → Option (Nat × ℚ) → Option (Nat × ℚ)
  | [], best => best
  | j :: rest, best =>
    if feasibleNext ctx curCap curTime cur j then
      match best with
      | none => findBestAux ctx curCap curTime cur rest (some (j, ctx.dm cur j))
      | some (b, d) =>
        if ctx.dm cur j < d then findBestAux ctx curCap curTime cur rest (some (j, ctx.dm cur j))
        else findBestAux ctx curCap curTime cur rest (some (b, d))
    else findBestAux ctx curCap curTime cur rest best

/-- The selected next stop, if any. -/
def findBest (ctx : NaiveCtx) (curCap curTime : ℚ) (cur : Nat) (unvisited : List Nat) :
    Option Nat :=
  (findBestAux ctx curCap curTime cur unvisited none).map Prod.fst

/-- Clock update after accepting stop `b` (lines 131-140 of vrp_solver.py;
    the clock only advances when the duration constraint is in use). -/
def stepTime (ctx : NaiveCtx) (curTime : ℚ) (cur b : Nat) : ℚ :=
  if ctx.useDur then arrivalTime ctx curTime cur b + (stopAt ctx b).service_time else curTime

/-- Load update after accepting stop `b` (lines 128-129 of vrp_solver.py). -/
def stepCap (ctx : NaiveCtx) (curCap : ℚ) (b : Nat) : ℚ :=
  if ctx.useCap then curCap + (stopAt ctx b).demand else curCap

/-- The inner `while unvisited:` loop of one vehicle (lines 75-141).
    Returns the accepted stops in order together with the remaining unvisited
    list.  The fuel argument is instantiated with `unvisited.length`; each
    continuing iteration removes exactly one element, so it never runs out. -/
def buildRoute (ctx : NaiveCtx) :
    Nat → Nat → List Nat → ℚ → ℚ → List Nat × List Nat
  | 0, _, unvisited, _, _ => ([], unvisited)
  | fuel + 1, cur, unvisited, curCap, curTime =>
    match findBest ctx curCap curTime cur unvisited with
    | none => ([], unvisited)
    | some b =>
      let res := buildRoute ctx fuel b (unvisited.erase b)
        (stepCap ctx curCap b) (stepTime ctx curTime cur b)
      (b :: res.1, res.2)

/-- The outer `for vehicle_id in range(n_vehicles)` loop (lines 66-144). -/
def assignVehicles (ctx : NaiveCtx) : Nat → List Nat → List (List Nat)
  | 0, _ => []
  | v + 1, unvisited =>
    if unvisited.isEmpty then []
    else
      let res := buildRoute ctx unvisited.length ctx.depot unvisited 0 ctx.window.1
      (ctx.depot :: res.1 ++ [ctx.depot]) :: assignVehicles ctx v res.2

/-- Per-route metrics of the naive heuristic (lines 155-175). -/
def mkDetail (ctx : NaiveCtx) (vid : Nat) (r : List Nat) : RouteDetail :=
  { vehicle_id := vid
    stops := r
    distance := pairSum ctx.dm r
    time := pairSum ctx.tm r + ((interiorOf r).map fun i => (stopAt ctx i).service_time).sum
    demand := ((interiorOf r).map fun i => (stopAt ctx i).demand).sum
    n_stops := r.length - 2 }

/-- The metric-aggregation loop of the naive heuristic (lines 146-178):
    routes of length ≤ 2 are skipped; returns (route_details, total_distance,
    total_time). -/
def computeMetrics (ctx : NaiveCtx) : Nat → List (List Nat) → List RouteDetail × ℚ × ℚ
  | _, [] => ([], 0, 0)
  | vid, r :: rest =>
    let res := computeMetrics ctx (vid + 1) rest
    if r.length ≤ 2 then res
    else
      let d := mkDetail ctx vid r
      (d :: res.1, d.distance + res.2.1, d.time + res.2.2)

/-- Assembly of the heuristic's fixed data (lines 53-64 of vrp_solver.py):
    capacity is used only when given and some demand is positive, duration only
    when given; the depot index is the first row flagged `is_depot`. -/
def naiveCtx (df : List Stop) (dm tm : Nat → Nat → ℚ)
    (vehicle_capacity max_route_duration_hours : Option ℚ)
    (depot_time_window : ℚ × ℚ) : NaiveCtx :=
  { df := df, dm := dm, tm := tm
    useCap := vehicle_capacity.isSome && decide (0 < demandSum df)
    useDur := max_route_duration_hours.isSome
    cap := vehicle_capacity.getD 0
    maxDurMin := (max_route_duration_hours.getD 0) * 60
    window := depot_time_window
    depot := df.findIdx Stop.is_depot }

/-- `df[~df['is_depot']].index.tolist()`. -/
def customersOf (df : List Stop) : List Nat :=
  (List.range df.length).filter fun i => !(df.getD i default).is_depot

/-- src/vrp_solver.py `run_naive_solution`. -/
def run_naive_solution (df : List Stop) (dm tm : Nat → Nat → ℚ) (n_vehicles : Nat)
    (vehicle_capacity : Option ℚ := none) (max_route_duration_hours : Option ℚ := none)
    (depot_time_window : ℚ × ℚ := (480, 1200)) : VrpResult :=
  if df.length < 2 ∨ n_vehicles < 1 then
    ⟨[], 0, 0, [], 0, some "Not enough stops or vehicles to build routes."⟩
  else
    let ctx := naiveCtx df dm tm vehicle_capacity max_route_duration_hours depot_time_window
    let routes := assignVehicles ctx n_vehicles (customersOf df)
    let res := computeMetrics ctx 0 routes
    ⟨routes, res.2.1, res.2.2, res.1,
      (routes.filter fun r => decide (2 < r.length)).length, none⟩

/-- Python `int(x)`: truncation toward zero. -/
def truncZ (q : ℚ) : ℤ := if q < 0 then ⌈q⌉ else ⌊q⌋

/-- The constraint model `run_ortools_solution` hands to the external OR-Tools
    engine (src/vrp_solver.py lines 240-320), recorded declaratively. -/
structure OrtoolsModel where
  n : Nat
  depot : Nat
  n_vehicles : Nat
  stops : List Stop
  useCapacity : Bool
  capacity : ℤ
  useTime : Bool
  maxRouteDuration : ℤ
  transit : Nat → Nat → ℤ
  window : ℤ × ℤ

/-- `df['earliest_time'].notna().any() or df['latest_time'].notna().any()`
    (line 272 of vrp_solver.py): time windows come from the dataframe. -/
def hasTimeWindowData (df : List Stop) : Bool :=
  df.any fun s => s.earliest_time.isSome || s.latest_time.isSome

/-- Construction of the OR-Tools model from the solver arguments
    (lines 240-320 of vrp_solver.py). -/
def mkOrtoolsModel (df : List Stop) (tm : Nat → Nat → ℚ) (n_vehicles : Nat)
    (vehicle_capacity max_route_duration_hours : Option ℚ)
    (depot_time_window : ℤ × ℤ) : OrtoolsModel :=
  { n := df.length
    depot := df.findIdx Stop.is_depot
    n_vehicles := n_vehicles
    stops := df
    useCapacity := vehicle_capacity.isSome && decide (0 < demandSum df)
    capacity := truncZ (vehicle_capacity.getD 0)
    useTime := hasTimeWindowData df || max_route_duration_hours.isSome
    maxRouteDuration :=
      match max_route_duration_hours with
      | some h => truncZ (h * 60)
      | none => 999999
    transit := fun a b => truncZ (tm a b) + truncZ ((df.getD a default).service_time)
    window := depot_time_window }

/-- Per-node cumulative-time bound (lines 298-320 of vrp_solver.py): a depot
    row is pinned to the depot operating window, a customer row to its own
    (possibly one-sided) time window. -/
def windowOkNode (m : OrtoolsModel) (i : Nat) (t : ℤ) : Prop :=
  if (m.stops.getD i default).is_depot then m.window.1 ≤ t ∧ t ≤ m.window.2
  else
    match (m.stops.getD i default).earliest_time, (m.stops.getD i default).latest_time with
    | some e, some l => e ≤ (t : ℚ) ∧ (t : ℚ) ≤ l
    | some e, none => e ≤ (t : ℚ)
    | none, some l => (t : ℚ) ≤ l
    | none, none => True

/-- The time-dimension accumulation constraints along one vehicle path
    (AddDimension with slack `max_route_duration` and per-node cumul bound
    `max_route_duration`, lines 286-295 of vrp_solver.py).  The node list is
    the full depot-to-depot path; `ts` are the cumulative time variables. -/
def TransitsOk (m : OrtoolsModel) : List Nat → List ℤ → Prop
  | [_], [t] => 0 ≤ t ∧ t ≤ m.maxRouteDuration
  | a :: b :: ns, t :: u :: ts =>
    0 ≤ t ∧ t ≤ m.maxRouteDuration ∧ t + m.transit a b ≤ u ∧
      u ≤ t + m.transit a b + m.maxRouteDuration ∧ TransitsOk m (b :: ns) (u :: ts)
  | _, _ => False

/-- One vehicle path admits a feasible time schedule. -/
def RouteOk (m : OrtoolsModel) (seq : List Nat) : Prop :=
  ∃ ts : List ℤ, TransitsOk m (m.depot :: (seq ++ [m.depot])) ts ∧
    List.Forall₂ (windowOkNode m) (m.depot :: (seq ++ [m.depot])) ts

/-- Cumulative load of a vehicle path (demand callback, lines 258-260). -/
def routeDemand (m : OrtoolsModel) (seq : List Nat) : ℤ :=
  (seq.map fun i => truncZ ((m.stops.getD i default).demand)).sum

/-- A per-vehicle assignment (sequence of visited nodes strictly between the
    two depot visits, one list per vehicle) satisfies the constraint model:
    every non-depot node is visited exactly once across vehicles, capacity is
    respected when the capacity dimension was added, and each path has a
    feasible time schedule when the time dimension was added. -/
def ValidSolution (m : OrtoolsModel) (vs : List (List Nat)) : Prop :=
  vs.length = m.n_vehicles ∧
  vs.flatten.Perm ((List.range m.n).filter fun i => i != m.depot) ∧
  (m.useCapacity = true → ∀ s ∈ vs, routeDemand m s ≤ m.capacity) ∧
  (m.useTime = true → ∀ s ∈ vs, RouteOk m s)

/-- Per-route metrics extracted from an OR-Tools assignment (lines 371-406 of
    vrp_solver.py).  Note the walk accumulates distance/time only while the
    next index is not the route end, so the final return-to-depot leg is not
    counted. -/
def mkOrtoolsDetail (df : List Stop) (dm tm : Nat → Nat → ℚ) (depot vid : Nat)
    (seq : List Nat) : RouteDetail :=
  { vehicle_id := vid
    stops := depot :: (seq ++ [depot])
    distance := pairSum dm (depot :: seq)
    time := pairSum tm (depot :: seq) + (seq.map fun i => (df.getD i default).service_time).sum
    demand := (seq.map fun i => (df.getD i default).demand).sum
    n_stops := seq.length }

/-- The extraction loop over vehicles (lines 365-408): vehicles whose path has
    no intermediate stop are dropped from `routes` and `route_details`. -/
def extractRoutes (df : List Stop) (dm tm : Nat → Nat → ℚ) (depot : Nat) :
    Nat → List (List Nat) → List (List Nat) × List RouteDetail × ℚ × ℚ
  | _, [] => ([], [], 0, 0)
  | vid, seq :: rest =>
    let res := extractRoutes df dm tm depot (vid + 1) rest
    if seq.isEmpty then res
    else
      let d := mkOrtoolsDetail df dm tm depot vid seq
      ((depot :: (seq ++ [depot])) :: res.1, d :: res.2.1,
        d.distance + res.2.2.1, d.time + res.2.2.2)

/-- src/vrp_solver.py `run_ortools_solution`, with the external OR-Tools search
    abstracted as the oracle `solve`. -/
def run_ortools_solution (solve : OrtoolsModel → Option (List (List Nat)))
    (df : List Stop) (dm tm : Nat → Nat → ℚ) (n_vehicles : Nat)
    (vehicle_capacity : Option ℚ := none) (max_route_duration_hours : Option ℚ := none)
    (depot_time_window : ℤ × ℤ := (480, 1200)) : VrpResult :=
  if df.length < 2 then
    ⟨[], 0, 0, [], 0, some "Not enough stops to build a route."⟩
  else if n_vehicles < 1 then
    ⟨[], 0, 0, [], 0, some "Number of vehicles must be at least 1."⟩
  else
    match solve (mkOrtoolsModel df tm n_vehicles vehicle_capacity
        max_route_duration_hours depot_time_window) with
    | none => ⟨[], 0, 0, [], 0, some "No feasible solution found with current constraints"⟩
    | some vs =>
      let res := extractRoutes df dm tm (df.findIdx Stop.is_depot) 0 vs
      ⟨res.1, res.2.2.1, res.2.2.2, res.2.1, res.1.length, none⟩

/-- The arguments `run_vrp_with_auto_relaxation`'s `try_solve` passes to the
    optimizer on each attempt (src/auto_config.py lines 127-139).  The search
    strategy, metaheuristic and time-limit arguments are constant across all
    attempts and omitted. -/
structure SolveArgs where
  n_vehicles : Nat
  capacity : Option ℚ
  maxDur : Option ℚ
  window : ℤ × ℤ
deriving DecidableEq

/-- The configuration dictionary the relaxation controller manipulates.
    Fields looked up with `.get(key, default)` in the source are `Option`s
    here, defaulted at the use sites exactly as in the source. -/
structure RelaxConfig where
  n_vehicles : Nat
  vehicle_capacity : Option ℚ
  use_capacity : Bool
  max_route_duration_hours : Option ℚ
  depot_open_hour : Option ℤ
  depot_close_hour : Option ℤ
  depot_time_window : Option (ℤ × ℤ)
  use_time_windows : Bool
deriving DecidableEq

/-- `try_solve` argument assembly: capacity is passed only when
    `use_capacity`; the depot time window defaults to (480, 1200).  Note that
    `use_time_windows` is NOT passed: the optimizer re-derives time windows
    from the dataframe. -/
def mkArgs (c : RelaxConfig) : SolveArgs :=
  ⟨c.n_vehicles, if c.use_capacity then c.vehicle_capacity else none,
   c.max_route_duration_hours, c.depot_time_window.getD (480, 1200)⟩

/-- Python truthiness of `config.get('vehicle_capacity')`. -/
def capTruthy : Option ℚ → Bool
  | some x => x != 0
  | none => false

/-- The `relaxation_info` dictionaries of src/auto_config.py. -/
inductive RelaxInfo where
  | noRelax
  | capacityRelaxed (factor : ℚ) (newCapacity : Option ℚ) (maxRouteHours : Option ℚ)
  | timeRelaxed (newCapacity : Option ℚ) (maxRouteHours : ℚ) (depotCloseHour : ℤ)
  | disabledAll (maxRouteHours : ℚ) (depotCloseHour : ℤ)
  | allFailed
deriving DecidableEq

/-- The controller's return value: the (solution, config, relaxation_info)
    triple of the source, plus an instrumentation field recording the
    arguments of every optimizer invocation in order. -/
structure RelaxOutcome where
  solution : VrpResult
  config : RelaxConfig
  info : RelaxInfo
  attempts : List SolveArgs
deriving DecidableEq

/-- Type of the `run_ortools_func` parameter of the controller. -/
def Runner : Type :=
  List Stop → (Nat → Nat → ℚ) → (Nat → Nat → ℚ) → SolveArgs → VrpResult

/-- Stage 4 of the relaxation ladder (src/auto_config.py lines 186-205):
    capacity and the `use_time_windows` flag are switched off and the +6h
    extension is kept.  Only the config flag changes — the solver still sees
    the same dataframe. -/
def relaxFinalStage (run_ortools_func : Runner) (df : List Stop)
    (dm tm : Nat → Nat → ℚ) (c : RelaxConfig) (origH : ℚ) (origClose depotOpen : ℤ)
    (acc : List SolveArgs) : RelaxOutcome :=
  let close6 := min 23 (origClose + 6)
  let c8 : RelaxConfig :=
    { c with use_capacity := false, use_time_windows := false,
             max_route_duration_hours := some (origH + 6),
             depot_close_hour := some close6,
             depot_time_window := some (depotOpen * 60, close6 * 60) }
  let a8 := mkArgs c8
  let s8 := run_ortools_func df dm tm a8
  if s8.error = none then ⟨s8, c8, .disabledAll (origH + 6) close6, acc ++ [a8]⟩
  else ⟨s8, c8, .allFailed, acc ++ [a8]⟩

/-- Stage 3 of the relaxation ladder (lines 164-184): extend the maximum
    route duration by +2h, +4h, +6h, each time also extending the depot
    closing hour (capped at 23) and rebuilding the depot time window. -/
def relaxStage3 (run_ortools_func : Runner) (df : List Stop)
    (dm tm : Nat → Nat → ℚ) (c : RelaxConfig) (acc : List SolveArgs) : RelaxOutcome :=
  let origH := c.max_route_duration_hours.getD 9
  let origClose := c.depot_close_hour.getD 18
  let depotOpen := c.depot_open_hour.getD 8
  let close2 := min 23 (origClose + 2)
  let c5 : RelaxConfig :=
    { c with max_route_duration_hours := some (origH + 2),
             depot_close_hour := some close2,
             depot_time_window := some (depotOpen * 60, close2 * 60) }
  let a5 := mkArgs c5
  let s5 := run_ortools_func df dm tm a5
  if s5.error = none then ⟨s5, c5, .timeRelaxed c5.vehicle_capacity (origH + 2) close2, acc ++ [a5]⟩
  else
    let close4 := min 23 (origClose + 4)
    let c6 : RelaxConfig :=
      { c5 with max_route_duration_hours := some (origH + 4),
                depot_close_hour := some close4,
                depot_time_window := some (depotOpen * 60, close4 * 60) }
    let a6 := mkArgs c6
    let s6 := run_ortools_func df dm tm a6
    if s6.error = none then
      ⟨s6, c6, .timeRelaxed c6.vehicle_capacity (origH + 4) close4, acc ++ [a5, a6]⟩
    else
      let close6 := min 23 (origClose + 6)
      let c7 : RelaxConfig :=
        { c6 with max_route_duration_hours := some (origH + 6),
                  depot_close_hour := some close6,
                  depot_time_window := some (depotOpen * 60, close6 * 60) }
      let a7 := mkArgs c7
      let s7 := run_ortools_func df dm tm a7
      if s7.error = none then
        ⟨s7, c7, .timeRelaxed c7.vehicle_capacity (origH + 6) close6, acc ++ [a5, a6, a7]⟩
      else
        relaxFinalStage run_ortools_func df dm tm c7 origH origClose depotOpen
          (acc ++ [a5, a6, a7])

/-- src/auto_config.py `run_vrp_with_auto_relaxation`: stage 1 tries the given
    configuration; stage 2 (when capacity is in use and truthy) retries at
    capacity ×1.5, ×2.0, ×3.0, restoring the original capacity if all fail;
    then stages 3 and 4 follow. -/
def run_vrp_with_auto_relaxation (run_ortools_func : Runner) (df : List Stop)
    (dm tm : Nat → Nat → ℚ) (initial_config : RelaxConfig) : RelaxOutcome :=
  let c := initial_config
  let a1 := mkArgs c
  let s1 := run_ortools_func df dm tm a1
  if s1.error = none then ⟨s1, c, .noRelax, [a1]⟩
  else if c.use_capacity && capTruthy c.vehicle_capacity then
    let origCap := c.vehicle_capacity.getD 0
    let c2 : RelaxConfig := { c with vehicle_capacity := some (origCap * 1.5) }
    let a2 := mkArgs c2
    let s2 := run_ortools_func df dm tm a2
    if s2.error = none then
      ⟨s2, c2, .capacityRelaxed 1.5 c2.vehicle_capacity c2.max_route_duration_hours, [a1, a2]⟩
    else
      let c3 : RelaxConfig := { c2 with vehicle_capacity := some (origCap * 2) }
      let a3 := mkArgs c3
      let s3 := run_ortools_func df dm tm a3
      if s3.error = none then
        ⟨s3, c3, .capacityRelaxed 2 c3.vehicle_capacity c3.max_route_duration_hours, [a1, a2, a3]⟩
      else
        let c4 : RelaxConfig := { c3 with vehicle_capacity := some (origCap * 3) }
        let a4 := mkArgs c4
        let s4 := run_ortools_func df dm tm a4
        if s4.error = none then
          ⟨s4, c4, .capacityRelaxed 3 c4.vehicle_capacity c4.max_route_duration_hours,
            [a1, a2, a3, a4]⟩
        else
          relaxStage3 run_ortools_func df dm tm
            { c4 with vehicle_capacity := some origCap } [a1, a2, a3, a4]
  else relaxStage3 run_ortools_func df dm tm c [a1]

/-- The suggested-configuration dictionary of src/auto_config.py
    `auto_configure_parameters`. -/
structure AutoConfig where
  n_vehicles : Nat
  vehicle_capacity : ℚ
  max_route_duration_hours : ℚ
  depot_open_hour : ℤ
  depot_close_hour : ℤ
  speed_kmh : ℚ
  use_capacity : Bool
  use_time_windows : Bool
deriving DecidableEq

/-- src/auto_config.py `auto_configure_parameters` (lines 12-97).  `demands`
    is `some` of the demand column when a demand column is mapped and present,
    `none` otherwise; `has_time_window_data` is the source's
    `has_time_windows` test on the two time columns. -/
def auto_configure_parameters (n_stops : Nat) (demands : Option (List ℚ))
    (has_time_window_data : Bool) : AutoConfig :=
  let total_demand : ℚ := match demands with | some l => l.sum | none => (n_stops : ℚ)
  let max_demand : ℚ := match demands with | some l => l.foldr max 0 | none => 1
  let has_demand_data : Bool := match demands with | some l => decide (0 < l.sum) | none => false
  let num_vehicles : Nat := max 1 (min 50 ⌊(n_stops : ℚ) / 25 + 1 / 2⌋₊)
  let vehicle_capacity : ℚ :=
    if has_demand_data then
      max (max_demand * 1.5) (total_demand / (max n_stops 1 : Nat) * 30)
    else 10 ^ 9
  { n_vehicles := num_vehicles
    vehicle_capacity := vehicle_capacity
    max_route_duration_hours := if !has_time_window_data then 9 else 10
    depot_open_hour := 8
    depot_close_hour := if !has_time_window_data then 18 else 20
    speed_kmh := 45
    use_capacity := has_demand_data
    use_time_windows := has_time_window_data }

/-- The vehicle-count rule exactly as the spec words it (§4.4): the ceiling of
    stops/25, clamped to [1, 50].  Stated for comparison with the source's
    `auto_configure_parameters`. -/
def specCeilVehicles (n_stops : Nat) : Nat :=
  max 1 (min 50 ⌈(n_stops : ℚ) / 25⌉₊)

/-- src/data_utils.py `haversine_distance`: great-circle distance in km with
    Earth radius 6371, latitudes/longitudes in degrees. -/
noncomputable def haversine_distance (lat1 lon1 lat2 lon2 : ℝ) : ℝ :=
  6371 * (2 * Real.arcsin (Real.sqrt (
    Real.sin ((lat2 * (Real.pi / 180) - lat1 * (Real.pi / 180)) / 2) ^ 2 +
    Real.cos (lat1 * (Real.pi / 180)) * Real.cos (lat2 * (Real.pi / 180)) *
      Real.sin ((lon2 * (Real.pi / 180) - lon1 * (Real.pi / 180)) / 2) ^ 2)))

/-- src/data_utils.py `build_distance_matrix`: zero diagonal, haversine
    off-diagonal; entries outside the stop range stay at the `np.zeros`
    initialisation. -/
noncomputable def build_distance_matrix (stops : List (ℝ × ℝ)) : Nat → Nat → ℝ :=
  fun i j =>
    if i < stops.length ∧ j < stops.length ∧ i ≠ j then
      haversine_distance (stops.getD i (0, 0)).1 (stops.getD i (0, 0)).2
        (stops.getD j (0, 0)).1 (stops.getD j (0, 0)).2
    else 0

/-- src/data_utils.py `build_time_matrix`: `(distance_matrix / speed_kmh) * 60`. -/
noncomputable def build_time_matrix (dm : Nat → Nat → ℝ) (speed_kmh : ℝ) :
    Nat → Nat → ℝ :=
  fun i j => dm i j / speed_kmh * 60

/-- Adapter plugging `run_ortools_solution` (with its search oracle) into the
    relaxation controller, matching the positional call in `try_solve`. -/
def ortoolsRunner (solve : OrtoolsModel → Option (List (List Nat))) : Runner :=
  fun df dm tm a =>
    run_ortools_solution solve df dm tm a.n_vehicles a.capacity a.maxDur a.window

/- ------------------------------------------------------------------ -/
/- Concrete inputs used by counterexamples, failing inputs and
   witnesses.                                                          -/
/- ------------------------------------------------------------------ -/

/-- Scenario for C1: one depot, customer 1 whose time window closes at minute
    490 although every travel leg takes 60 minutes and the depot opens at
    minute 480, customer 2 unconstrained.  All demands and service times 0. -/
def df0 : List Stop :=
  [⟨0, some 480, some 1200, 0, true⟩, ⟨0, none, some 490, 0, false⟩,
   ⟨0, none, none, 0, false⟩]

/-- The same stops with the customer time windows removed — what stage 4 of
    the relaxation ladder is specified to solve. -/
def df0noTW : List Stop :=
  [⟨0, some 480, some 1200, 0, true⟩, ⟨0, none, none, 0, false⟩,
   ⟨0, none, none, 0, false⟩]

/-- Travel-time matrix for the C1 scenario: 60 minutes between distinct stops. -/
def tm0 : Nat → Nat → ℚ := fun i j => if i = j then 0 else 60

/-- Initial configuration for the C1 scenario: 1 vehicle, capacity unused,
    10 h maximum duration, depot open 8:00-20:00 (what the advisor suggests
    for time-windowed data). -/
def cfg0 : RelaxConfig :=
  ⟨1, none, false, some 10, some 8, some 20, some (480, 1200), true⟩

/-- A run_ortools_func that always reports search infeasibility. -/
def alwaysFail : Runner :=
  fun _ _ _ _ => ⟨[], 0, 0, [], 0, some "No feasible solution found with current constraints"⟩

/-- A zero matrix (used where the matrix content is irrelevant). -/
def matZ : Nat → Nat → ℚ := fun _ _ => 0

/-- Initial configuration for the C2 counterexample: capacity 10 in use,
    9 h duration, depot 8:00-18:00. -/
def cfgC2 : RelaxConfig :=
  ⟨2, some 10, true, some 9, some 8, some 18, some (480, 1080), false⟩

/-- Input for C3: time windows present (stop 1 closes at minute 0, which no
    arrival can meet), no maximum route duration configured, no demand. -/
def dfC3 : List Stop :=
  [⟨0, none, none, 0, true⟩, ⟨0, some 0, some 0, 0, false⟩, ⟨0, none, none, 0, false⟩]

/-- Distances for C3: stop 1 is the nearest to the depot. -/
def dmC3 : Nat → Nat → ℚ := fun i j =>
  if i = j then 0
  else if (i = 0 ∧ j = 1) ∨ (i = 1 ∧ j = 0) then 1
  else if (i = 1 ∧ j = 2) ∨ (i = 2 ∧ j = 1) then 1
  else 2

/-- Input for C9/C10: two customers of demand 5 with vehicle capacity 3, so no
    stop can ever be inserted. -/
def dfC9 : List Stop :=
  [⟨0, none, none, 0, true⟩, ⟨5, none, none, 0, false⟩, ⟨5, none, none, 0, false⟩]

/- ------------------------------------------------------------------ -/
/- Lemmas about the greedy construction heuristic.                     -/
/- ------------------------------------------------------------------ -/

theorem findBestAux_invariant (ctx : NaiveCtx) (cc ct : ℚ) (cur : Nat)
    (Q : Nat × ℚ → Prop) :
    ∀ (l : List Nat) (acc : Option (Nat × ℚ)),
      (∀ p, acc = some p → Q p) →
      (∀ j ∈ l, feasibleNext ctx cc ct cur j = true → Q (j, ctx.dm cur j)) →
      ∀ p, findBestAux ctx cc ct cur l acc = some p → Q p := by
  intro l
  induction l with
  | nil =>
    intro acc hacc _ p hp
    exact hacc p (by simpa [findBestAux] using hp)
  | cons j rest ih =>
    rintro (_ | ⟨b0, d0⟩) hacc hl p hp
    · by_cases hf : feasibleNext ctx cc ct cur j = true
      · simp only [findBestAux, hf, if_true] at hp
        refine ih _ ?_ ?_ p hp
        · intro q hq
          cases hq
          exact hl j (List.mem_cons_self _ _) hf
        · intro k hk hfk
          exact hl k (List.mem_cons_of_mem _ hk) hfk
      · simp only [findBestAux, hf, if_false] at hp
        refine ih _ hacc ?_ p hp
        intro k hk hfk
        exact hl k (List.mem_cons_of_mem _ hk) hfk
    · by_cases hf : feasibleNext ctx cc ct cur j = true
      · simp only [findBestAux, hf, if_true] at hp
        by_cases hd : ctx.dm cur j < d0
        · rw [if_pos hd] at hp
          refine ih _ ?_ ?_ p hp
          · intro q hq
            cases hq
            exact hl j (List.mem_cons_self _ _) hf
          · intro k hk hfk
            exact hl k (List.mem_cons_of_mem _ hk) hfk
        · rw [if_neg hd] at hp
          refine ih _ ?_ ?_ p hp
          · intro q hq
            exact hacc q hq
          · intro k hk hfk
            exact hl k (List.mem_cons_of_mem _ hk) hfk
      · simp only [findBestAux, hf, if_false] at hp
        refine ih _ hacc ?_ p hp
        intro k hk hfk
        exact hl k (List.mem_cons_of_mem _ hk) hfk

theorem findBest_mem (ctx : NaiveCtx) (cc ct : ℚ) (cur : Nat) (unv : List Nat)
    (b : Nat) (h : findBest ctx cc ct cur unv = some b) :
    b ∈ unv ∧ feasibleNext ctx cc ct cur b = true := by
  unfold findBest at h
  obtain ⟨p, hp, hfst⟩ := Option.map_eq_some'.mp h
  have := findBestAux_invariant ctx cc ct cur
    (fun q => q.1 ∈ unv ∧ feasibleNext ctx cc ct cur q.1 = true) unv none
    (by intro q hq; cases hq) (by intro k hk hfk; exact ⟨hk, hfk⟩) p hp
  subst hfst
  exact this

theorem findBestAux_isSome (ctx : NaiveCtx) (cc ct : ℚ) (cur : Nat) :
    ∀ (l : List Nat) (acc : Option (Nat × ℚ)),
      (acc.isSome = true ∨ ∃ j ∈ l, feasibleNext ctx cc ct cur j = true) →
      (findBestAux ctx cc ct cur l acc).isSome = true := by
  intro l
  induction l with
  | nil =>
    intro acc h
    rcases h with h | ⟨j, hj, _⟩
    · simpa [findBestAux] using h
    · cases hj
  | cons j rest ih =>
    rintro (_ | ⟨b0, d0⟩) h
    · by_cases hf : feasibleNext ctx cc ct cur j = true
      · simp only [findBestAux, hf, if_true]
        exact ih _ (Or.inl rfl)
      · simp only [findBestAux, hf, if_false]
        refine ih _ ?_
        rcases h with h | ⟨k, hk, hfk⟩
        · cases h
        · rcases List.mem_cons.mp hk with rfl | hk'
          · exact absurd hfk hf
          · exact Or.inr ⟨k, hk', hfk⟩
    · by_cases hf : feasibleNext ctx cc ct cur j = true
      · simp only [findBestAux, hf, if_true]
        by_cases hd : ctx.dm cur j < d0
        · rw [if_pos hd]; exact ih _ (Or.inl rfl)
        · rw [if_neg hd]; exact ih _ (Or.inl rfl)
      · simp only [findBestAux, hf, if_false]
        exact ih _ (Or.inl rfl)

theorem findBest_isSome (ctx : NaiveCtx) (cc ct : ℚ) (cur : Nat) (unv : List Nat)
    (h : ∃ j ∈ unv, feasibleNext ctx cc ct cur j = true) :
    ∃ b, findBest ctx cc ct cur unv = some b ∧ b ∈ unv := by
  have hs := findBestAux_isSome ctx cc ct cur unv none (Or.inr h)
  obtain ⟨p, hp⟩ := Option.isSome_iff_exists.mp hs
  refine ⟨p.1, ?_, ?_⟩
  · simp [findBest, hp]
  · exact (findBest_mem ctx cc ct cur unv p.1 (by simp [findBest, hp])).1

theorem buildRoute_perm (ctx : NaiveCtx) :
    ∀ (fuel cur : Nat) (unv : List Nat) (cc ct : ℚ),
      ((buildRoute ctx fuel cur unv cc ct).1 ++
        (buildRoute ctx fuel cur unv cc ct).2).Perm unv := by
  intro fuel
  induction fuel with
  | zero => intro cur unv cc ct; simp [buildRoute]
  | succ n ih =>
    intro cur unv cc ct
    simp only [buildRoute]
    cases h : findBest ctx cc ct cur unv with
    | none => simp
    | some b =>
      have hb : b ∈ unv := (findBest_mem ctx cc ct cur unv b h).1
      simp only [List.cons_append]
      exact ((ih b (unv.erase b) _ _).cons b).trans (List.perm_cons_erase hb).symm

theorem interiorOf_wrap (d : Nat) (l : List Nat) :
    interiorOf (d :: l ++ [d]) = l := by
  simp [interiorOf]

theorem assignVehicles_shape (ctx : NaiveCtx) :
    ∀ (v : Nat) (unv : List Nat) (r : List Nat),
      r ∈ assignVehicles ctx v unv → ∃ l, r = ctx.depot :: l ++ [ctx.depot] := by
  intro v
  induction v with
  | zero => intro unv r hr; simp [assignVehicles] at hr
  | succ n ih =>
    intro unv r hr
    by_cases he : unv.isEmpty = true
    · simp [assignVehicles, he] at hr
    · simp only [assignVehicles] at hr
      rw [if_neg he] at hr
      rcases List.mem_cons.mp hr with h1 | h1
      · exact ⟨_, h1⟩
      · exact ih _ r h1

theorem assignVehicles_perm (ctx : NaiveCtx) :
    ∀ (v : Nat) (unv : List Nat),
      ∃ rest : List Nat,
        (((assignVehicles ctx v unv).map interiorOf).flatten ++ rest).Perm unv := by
  intro v
  induction v with
  | zero => intro unv; exact ⟨unv, by simp [assignVehicles]⟩
  | succ n ih =>
    intro unv
    by_cases he : unv.isEmpty = true
    · exact ⟨unv, by simp [assignVehicles, he]⟩
    · obtain ⟨rest2, h2⟩ :=
        ih (buildRoute ctx unv.length ctx.depot unv 0 ctx.window.1).2
      refine ⟨rest2, ?_⟩
      simp only [assignVehicles]
      rw [if_neg he, List.map_cons, List.flatten_cons, interiorOf_wrap, List.append_assoc]
      have hb := buildRoute_perm ctx unv.length ctx.depot unv 0 ctx.window.1
      exact ((h2.append_left _).trans hb)

theorem computeMetrics_dist_sum (ctx : NaiveCtx) :
    ∀ (vid : Nat) (routes : List (List Nat)),
      (computeMetrics ctx vid routes).2.1 =
        ((computeMetrics ctx vid routes).1.map RouteDetail.distance).sum := by
  intro vid routes
  induction routes generalizing vid with
  | nil => simp [computeMetrics]
  | cons r rest ih =>
    simp only [computeMetrics]
    by_cases h : r.length ≤ 2
    · rw [if_pos h]; exact ih (vid + 1)
    · rw [if_neg h]; simp [ih (vid + 1)]

theorem computeMetrics_time_sum (ctx : NaiveCtx) :
    ∀ (vid : Nat) (routes : List (List Nat)),
      (computeMetrics ctx vid routes).2.2 =
        ((computeMetrics ctx vid routes).1.map RouteDetail.time).sum := by
  intro vid routes
  induction routes generalizing vid with
  | nil => simp [computeMetrics]
  | cons r rest ih =>
    simp only [computeMetrics]
    by_cases h : r.length ≤ 2
    · rw [if_pos h]; exact ih (vid + 1)
    · rw [if_neg h]; simp [ih (vid + 1)]

theorem computeMetrics_stops_long (ctx : NaiveCtx) :
    ∀ (vid : Nat) (routes : List (List Nat)) (d : RouteDetail),
      d ∈ (computeMetrics ctx vid routes).1 → 2 < d.stops.length := by
  intro vid routes
  induction routes generalizing vid with
  | nil => intro d hd; simp [computeMetrics] at hd
  | cons r rest ih =>
    intro d hd
    simp only [computeMetrics] at hd
    by_cases h : r.length ≤ 2
    · rw [if_pos h] at hd; exact ih (vid + 1) d hd
    · rw [if_neg h] at hd
      rcases List.mem_cons.mp hd with rfl | hd'
      · simpa [mkDetail] using Nat.lt_of_not_le h
      · exact ih (vid + 1) d hd'

theorem extractRoutes_routes (df : List Stop) (dm tm : Nat → Nat → ℚ) (depot : Nat) :
    ∀ (vid : Nat) (vs : List (List Nat)),
      (extractRoutes df dm tm depot vid vs).1 =
        (vs.filter fun s => !s.isEmpty).map fun s => depot :: (s ++ [depot]) := by
  intro vid vs
  induction vs generalizing vid with
  | nil => simp [extractRoutes]
  | cons s rest ih =>
    simp only [extractRoutes, List.filter_cons]
    by_cases h : s.isEmpty = true
    · rw [if_pos h]
      simp [h, ih (vid + 1)]
    · rw [if_neg h]
      simp only [Bool.not_eq_true] at h
      simp [h, ih (vid + 1)]

theorem extractRoutes_dist_sum (df : List Stop) (dm tm : Nat → Nat → ℚ) (depot : Nat) :
    ∀ (vid : Nat) (vs : List (List Nat)),
      (extractRoutes df dm tm depot vid vs).2.2.1 =
        ((extractRoutes df dm tm depot vid vs).2.1.map RouteDetail.distance).sum := by
  intro vid vs
  induction vs generalizing vid with
  | nil => simp [extractRoutes]
  | cons s rest ih =>
    simp only [extractRoutes]
    by_cases h : s.isEmpty = true
    · rw [if_pos h]; exact ih (vid + 1)
    · rw [if_neg h]; simp [ih (vid + 1)]

theorem extractRoutes_time_sum (df : List Stop) (dm tm : Nat → Nat → ℚ) (depot : Nat) :
    ∀ (vid : Nat) (vs : List (List Nat)),
      (extractRoutes df dm tm depot vid vs).2.2.2 =
        ((extractRoutes df dm tm depot vid vs).2.1.map RouteDetail.time).sum := by
  intro vid vs
  induction vs generalizing vid with
  | nil => simp [extractRoutes]
  | cons s rest ih =>
    simp only [extractRoutes]
    by_cases h : s.isEmpty = true
    · rw [if_pos h]; exact ih (vid + 1)
    · rw [if_neg h]; simp [ih (vid + 1)]

theorem depotIdx_flag (df : List Stop) (hdep : ∃ s ∈ df, s.is_depot = true) :
    (df.getD (df.findIdx Stop.is_depot) default).is_depot = true := by
  have hlt : df.findIdx Stop.is_depot < df.length :=
    List.findIdx_lt_length_of_exists hdep
  rw [List.getD_eq_getElem _ _ hlt]
  exact List.findIdx_getElem

theorem depot_unique (df : List Stop) (h1 : df.countP (fun s => s.is_depot) = 1) :
    ∀ (x : Nat), x < df.length → x ≠ df.findIdx Stop.is_depot →
      (df.getD x default).is_depot = false := by
  induction df with
  | nil => intro x hx; cases hx
  | cons s t ih =>
    intro x hx hne
    by_cases hs : s.is_depot = true
    · have hzero : t.countP (fun s => s.is_depot) = 0 := by
        have := h1
        rw [List.countP_cons_of_pos _ _ (by simpa using hs)] at this
        omega
      have hfi : (s :: t).findIdx Stop.is_depot = 0 := by
        rw [List.findIdx_cons]
        simp [hs]
      rw [hfi] at hne
      obtain ⟨y, rfl⟩ := Nat.exists_eq_succ_of_ne_zero hne
      have hy : y < t.length := by simpa using hx
      have hmem : t.getD y default ∈ t := by
        rw [List.getD_eq_getElem _ _ hy]
        exact List.getElem_mem hy
      have := List.countP_eq_zero.mp hzero _ hmem
      simpa using this
    · have hone : t.countP (fun s => s.is_depot) = 1 := by
        have := h1
        rw [List.countP_cons_of_neg _ _ (by simpa using hs)] at this
        exact this
      have hfi : (s :: t).findIdx Stop.is_depot = t.findIdx Stop.is_depot + 1 := by
        rw [List.findIdx_cons]
        simp [hs]
      cases x with
      | zero => simpa using hs
      | succ y =>
        rw [hfi] at hne
        have hy : y < t.length := by simpa using hx
        exact ih hone y hy (by omega)

theorem countP_one_exists (df : List Stop) (h1 : df.countP (fun s => s.is_depot) = 1) :
    ∃ s ∈ df, s.is_depot = true := by
  by_contra hno
  push_neg at hno
  have : df.countP (fun s => s.is_depot) = 0 := by
    apply List.countP_eq_zero.mpr
    intro a ha
    simpa using hno a ha
  omega

theorem customersOf_mem (df : List Stop) (x : Nat) (hx : x ∈ customersOf df) :
    x < df.length ∧ (df.getD x default).is_depot = false := by
  simp only [customersOf, List.mem_filter, List.mem_range] at hx
  exact ⟨hx.1, by simpa using hx.2⟩

theorem customersOf_nodup (df : List Stop) : (customersOf df).Nodup :=
  (List.nodup_range _).filter _

theorem flatten_filter_sublist (p : List Nat → Bool) (vs : List (List Nat)) :
    ((vs.filter p).flatten).Sublist vs.flatten := by
  induction vs with
  | nil => simp
  | cons s rest ih =>
    simp only [List.filter_cons, List.flatten_cons]
    by_cases h : p s = true
    · rw [if_pos h]
      simpa using ih.append_left s
    · rw [if_neg h]
      exact ih.trans (List.sublist_append_right s rest.flatten)

/-- C7: for every solution returned by either solver, `total_distance` is the
    exact sum of the per-route `distance` fields of `route_details`, and
    `total_time` the exact sum of the per-route `time` fields. -/
theorem C7_total_sums :
    (∀ (df : List Stop) (dm tm : Nat → Nat → ℚ) (v : Nat) (cap dur : Option ℚ)
        (w : ℚ × ℚ),
      (run_naive_solution df dm tm v cap dur w).total_distance =
        ((run_naive_solution df dm tm v cap dur w).route_details.map
          RouteDetail.distance).sum ∧
      (run_naive_solution df dm tm v cap dur w).total_time =
        ((run_naive_solution df dm tm v cap dur w).route_details.map
          RouteDetail.time).sum) ∧
    (∀ (solve : OrtoolsModel → Option (List (List Nat))) (df : List Stop)
        (dm tm : Nat → Nat → ℚ) (v : Nat) (cap dur : Option ℚ) (w : ℤ × ℤ),
      (run_ortools_solution solve df dm tm v cap dur w).total_distance =
        ((run_ortools_solution solve df dm tm v cap dur w).route_details.map
          RouteDetail.distance).sum ∧
      (run_ortools_solution solve df dm tm v cap dur w).total_time =
        ((run_ortools_solution solve df dm tm v cap dur w).route_details.map
          RouteDetail.time).sum) := by
  constructor
  · intro df dm tm v cap dur w
    unfold run_naive_solution
    split
    · simp
    · exact ⟨computeMetrics_dist_sum _ _ _, computeMetrics_time_sum _ _ _⟩
  · intro solve df dm tm v cap dur w
    unfold run_ortools_solution
    split
    · simp
    · split
      · simp
      · split
        · simp
        · exact ⟨extractRoutes_dist_sum _ _ _ _ _ _, extractRoutes_time_sum _ _ _ _ _ _⟩

/-- C9: with at least two stops and one vehicle the greedy heuristic never
    reports an error, whatever stops turn out to be unassignable; on the
    concrete all-stops-infeasible input `dfC9` it silently returns a solution
    covering fewer stops than the input has. -/
theorem C9_no_error_on_partial :
    (∀ (df : List Stop) (dm tm : Nat → Nat → ℚ) (v : Nat) (cap dur : Option ℚ)
        (w : ℚ × ℚ), 2 ≤ df.length → 1 ≤ v →
      (run_naive_solution df dm tm v cap dur w).error = none) ∧
    ((run_naive_solution dfC9 matZ matZ 1 (some 3) none (480, 1200)).error = none ∧
     (((run_naive_solution dfC9 matZ matZ 1 (some 3) none (480, 1200)).routes.map
        interiorOf).flatten).length < (customersOf dfC9).length) := by
  refine ⟨?_, by decide, by decide⟩
  intro df dm tm v cap dur w h2 hv
  unfold run_naive_solution
  rw [if_neg (by omega)]

/-- C10: the greedy heuristic's `routes` may keep depot-to-depot pairs, which
    are excluded from the details and the used-vehicle count, so
    `n_vehicles_used` can be smaller than `routes.length`; the optimizer's
    `routes` only contains routes longer than 2 and its `n_vehicles_used`
    always equals `routes.length`. -/
theorem C10_empty_route_difference :
    (∀ (df : List Stop) (dm tm : Nat → Nat → ℚ) (v : Nat) (cap dur : Option ℚ)
        (w : ℚ × ℚ),
      (run_naive_solution df dm tm v cap dur w).n_vehicles_used =
        ((run_naive_solution df dm tm v cap dur w).routes.filter
          fun r => decide (2 < r.length)).length ∧
      ∀ d ∈ (run_naive_solution df dm tm v cap dur w).route_details,
        2 < d.stops.length) ∧
    (∀ (solve : OrtoolsModel → Option (List (List Nat))) (df : List Stop)
        (dm tm : Nat → Nat → ℚ) (v : Nat) (cap dur : Option ℚ) (w : ℤ × ℤ),
      (∀ r ∈ (run_ortools_solution solve df dm tm v cap dur w).routes,
        2 < r.length) ∧
      (run_ortools_solution solve df dm tm v cap dur w).n_vehicles_used =
        (run_ortools_solution solve df dm tm v cap dur w).routes.length) ∧
    ((run_naive_solution dfC9 matZ matZ 1 (some 3) none (480, 1200)).routes =
        [[0, 0]] ∧
     (run_naive_solution dfC9 matZ matZ 1 (some 3) none (480, 1200)).n_vehicles_used
        = 0) := by
  refine ⟨?_, ?_, by decide, by decide⟩
  · intro df dm tm v cap dur w
    constructor
    · unfold run_naive_solution
      split
      · simp
      · rfl
    · intro d hd
      unfold run_naive_solution at hd
      revert hd
      split
      · intro hd; simp at hd
      · intro hd; exact computeMetrics_stops_long _ _ _ d hd
  · intro solve df dm tm v cap dur w
    constructor
    · intro r hr
      unfold run_ortools_solution at hr
      revert hr
      split
      · intro hr; simp at hr
      · split
        · intro hr; simp at hr
        · split
          · intro hr; simp at hr
          · intro hr
            rename_i vs
            simp only [extractRoutes_routes] at hr
            obtain ⟨s, hs, rfl⟩ := List.mem_map.mp hr
            have hne : s ≠ [] := by
              have := (List.mem_filter.mp hs).2
              simpa [List.isEmpty_iff] using this
            have : 0 < s.length := List.length_pos.mpr hne
            simp only [List.length_cons, List.length_append, List.length_singleton]
            omega
    · unfold run_ortools_solution
      split
      · rfl
      · split
        · rfl
        · split
          · rfl
          · rfl

theorem naive_routes_shape (df : List Stop) (dm tm : Nat → Nat → ℚ) (v : Nat)
    (cap dur : Option ℚ) (w : ℚ × ℚ) (r : List Nat)
    (hr : r ∈ (run_naive_solution df dm tm v cap dur w).routes) :
    ∃ l, r = df.findIdx Stop.is_depot :: l ++ [df.findIdx Stop.is_depot] := by
  unfold run_naive_solution at hr
  revert hr
  split
  · intro hr; simp at hr
  · intro hr
    exact assignVehicles_shape _ _ _ _ hr

theorem naive_interior_flatten_perm (df : List Stop) (dm tm : Nat → Nat → ℚ)
    (v : Nat) (cap dur : Option ℚ) (w : ℚ × ℚ) :
    ∃ rest : List Nat,
      ((((run_naive_solution df dm tm v cap dur w).routes.map interiorOf).flatten ++
        rest)).Perm (customersOf df) := by
  unfold run_naive_solution
  split
  · exact ⟨customersOf df, by simp⟩
  · exact assignVehicles_perm _ v (customersOf df)

theorem naive_interior_mem (df : List Stop) (dm tm : Nat → Nat → ℚ) (v : Nat)
    (cap dur : Option ℚ) (w : ℚ × ℚ) (x : Nat)
    (hx : x ∈ (((run_naive_solution df dm tm v cap dur w).routes.map interiorOf).flatten)) :
    x < df.length ∧ (df.getD x default).is_depot = false := by
  obtain ⟨rest, hperm⟩ := naive_interior_flatten_perm df dm tm v cap dur w
  exact customersOf_mem df x (hperm.subset (List.mem_append_left rest hx))

/-- C6: for a stop table with exactly one depot, every route produced by
    either solver starts and ends at the depot index, its interior consists of
    distinct non-depot stop positions, and no stop occurs in the interior of
    more than one route (the flattened interiors are duplicate-free). -/
theorem C6_route_invariants (df : List Stop) (dm tm : Nat → Nat → ℚ) (v : Nat)
    (cap dur : Option ℚ) (wq : ℚ × ℚ) (wz : ℤ × ℤ)
    (solve : OrtoolsModel → Option (List (List Nat)))
    (hone : df.countP (fun s => s.is_depot) = 1)
    (hsound : ∀ m vs, solve m = some vs → ValidSolution m vs) :
    (∀ r ∈ (run_naive_solution df dm tm v cap dur wq).routes,
      r.head? = some (df.findIdx Stop.is_depot) ∧
      r.getLast? = some (df.findIdx Stop.is_depot) ∧
      ∀ x ∈ interiorOf r, x < df.length ∧ (df.getD x default).is_depot = false ∧
        x ≠ df.findIdx Stop.is_depot) ∧
    ((((run_naive_solution df dm tm v cap dur wq).routes.map interiorOf).flatten)).Nodup ∧
    (∀ r ∈ (run_ortools_solution solve df dm tm v cap dur wz).routes,
      r.head? = some (df.findIdx Stop.is_depot) ∧
      r.getLast? = some (df.findIdx Stop.is_depot) ∧
      ∀ x ∈ interiorOf r, x < df.length ∧ (df.getD x default).is_depot = false ∧
        x ≠ df.findIdx Stop.is_depot) ∧
    ((((run_ortools_solution solve df dm tm v cap dur wz).routes.map
        interiorOf).flatten)).Nodup := by
  have hflag : (df.getD (df.findIdx Stop.is_depot) default).is_depot = true :=
    depotIdx_flag df (countP_one_exists df hone)
  refine ⟨?_, ?_, ?_, ?_⟩
  · intro r hr
    obtain ⟨l, rfl⟩ := naive_routes_shape df dm tm v cap dur wq r hr
    refine ⟨rfl, ?_, ?_⟩
    · rw [show df.findIdx Stop.is_depot :: l ++ [df.findIdx Stop.is_depot] =
        (df.findIdx Stop.is_depot :: l) ++ [df.findIdx Stop.is_depot] from rfl]
      exact List.getLast?_concat _
    · intro x hx
      have hxf : x ∈ (((run_naive_solution df dm tm v cap dur wq).routes.map
          interiorOf).flatten) := by
        apply List.mem_flatten.mpr
        exact ⟨interiorOf (df.findIdx Stop.is_depot :: l ++ [df.findIdx Stop.is_depot]),
          List.mem_map_of_mem _ hr, hx⟩
      obtain ⟨h1, h2⟩ := naive_interior_mem df dm tm v cap dur wq x hxf
      refine ⟨h1, h2, ?_⟩
      intro hcon
      rw [hcon, hflag] at h2
      cases h2
  · obtain ⟨rest, hperm⟩ := naive_interior_flatten_perm df dm tm v cap dur wq
    have hnd : ((((run_naive_solution df dm tm v cap dur wq).routes.map
        interiorOf).flatten) ++ rest).Nodup :=
      hperm.symm.nodup (customersOf_nodup df)
    exact (List.nodup_append.mp hnd).1
  · intro r hr
    unfold run_ortools_solution at hr
    revert hr
    split
    · intro hr; simp at hr
    · split
      · intro hr; simp at hr
      · split
        · intro hr; simp at hr
        · intro hr
          rename_i vs hvs
          simp only [extractRoutes_routes] at hr
          obtain ⟨s, hs, rfl⟩ := List.mem_map.mp hr
          obtain ⟨hlen, hperm, -, -⟩ := hsound _ _ hvs
          have hmem : ∀ x ∈ s, x < df.length ∧ x ≠ df.findIdx Stop.is_depot := by
            intro x hx
            have hxf : x ∈ vs.flatten :=
              List.mem_flatten.mpr ⟨s, (List.mem_filter.mp hs).1, hx⟩
            have := hperm.subset hxf
            simp only [List.mem_filter, List.mem_range] at this
            refine ⟨?_, ?_⟩
            · simpa [mkOrtoolsModel] using this.1
            · have := this.2
              simp only [mkOrtoolsModel] at this
              simpa using this
          refine ⟨rfl, ?_, ?_⟩
          · rw [show df.findIdx Stop.is_depot :: (s ++ [df.findIdx Stop.is_depot]) =
              (df.findIdx Stop.is_depot :: s) ++ [df.findIdx Stop.is_depot] from rfl]
            exact List.getLast?_concat _
          · rw [show df.findIdx Stop.is_depot :: (s ++ [df.findIdx Stop.is_depot]) =
              df.findIdx Stop.is_depot :: s ++ [df.findIdx Stop.is_depot] from rfl,
              interiorOf_wrap]
            intro x hx
            obtain ⟨h1, h2⟩ := hmem x hx
            exact ⟨h1, depot_unique df hone x h1 h2, h2⟩
  · unfold run_ortools_solution
    split
    · simp
    · split
      · simp
      · split
        · simp
        · rename_i vs hvs
          simp only [extractRoutes_routes, List.map_map]
          rw [List.map_id'' (fun s => by
            simpa using interiorOf_wrap (df.findIdx Stop.is_depot) s)]
          obtain ⟨hlen, hperm, -, -⟩ := hsound _ _ hvs
          have hnd : vs.flatten.Nodup :=
            hperm.symm.nodup ((List.nodup_range _).filter _)
          exact hnd.sublist (flatten_filter_sublist _ vs)

/-- A tiny stop table for the C3 witness: the customer's window closes at
    minute 10000, comfortably satisfiable. -/
def dfW3 : List Stop := [⟨0, none, none, 0, true⟩, ⟨0, none, some 10000, 0, false⟩]

/-- A heuristic context with the duration constraint in use (for the C3
    witness). -/
def ctxW : NaiveCtx := ⟨dfW3, matZ, matZ, false, true, 0, 600, (480, 1200), 0⟩

/-- A heuristic context with neither capacity nor duration in use (for the C3
    witness). -/
def ctxW2 : NaiveCtx := ⟨dfW3, matZ, matZ, false, false, 0, 0, (480, 1200), 0⟩

/-- C3 counterexample: time windows are present (stop 1's window is closed
    from minute 0 on, unmeetable since the clock starts at 480), no maximum
    route duration is configured — and the heuristic still routes stop 1.
    This refutes the claim that the latest-time check is applied whenever time
    windows are present. -/
theorem C3_counterexample :
    hasTimeWindowData dfC3 = true ∧
    (run_naive_solution dfC3 dmC3 matZ 1 none none (480, 1200)).routes =
      [[0, 1, 2, 0]] ∧
    (dfC3.getD 1 default).latest_time = some 0 ∧
    ((480 : ℚ) + matZ 0 1 > 0) := by decide

/-- C3 amended: the latest-time, depot-closing and duration checks are applied
    to an accepted candidate exactly when a maximum route duration is
    configured (`useDur`); when it is not, and capacity is also unused, every
    unvisited stop is selectable regardless of its time window. -/
theorem C3_greedy_checks_amended :
    (∀ (ctx : NaiveCtx) (cc ct : ℚ) (cur j : Nat),
      ctx.useDur = true → feasibleNext ctx cc ct cur j = true →
      (∀ l, (stopAt ctx j).latest_time = some l → arrivalTime ctx ct cur j ≤ l) ∧
      arrivalTime ctx ct cur j + (stopAt ctx j).service_time + ctx.tm j ctx.depot ≤
        ctx.window.2 ∧
      arrivalTime ctx ct cur j + (stopAt ctx j).service_time + ctx.tm j ctx.depot -
        ctx.window.1 ≤ ctx.maxDurMin) ∧
    (∀ (ctx : NaiveCtx) (cc ct : ℚ) (cur : Nat) (unv : List Nat),
      ctx.useDur = false → ctx.useCap = false → unv ≠ [] →
      ∃ b, findBest ctx cc ct cur unv = some b ∧ b ∈ unv) := by
  constructor
  · intro ctx cc ct cur j hdur hf
    simp only [feasibleNext, hdur, if_true, Bool.and_eq_true, decide_eq_true_eq] at hf
    obtain ⟨-, hmatch, hwin, hdurck⟩ := hf
    refine ⟨?_, hwin, hdurck⟩
    intro l hl
    rw [hl] at hmatch
    simpa using hmatch
  · intro ctx cc ct cur unv hdur hcap hne
    apply findBest_isSome
    refine ⟨unv.head hne, List.head_mem hne, ?_⟩
    simp [feasibleNext, hdur, hcap]

theorem C3_witness :
    (arrivalTime ctxW 480 0 1 ≤ 10000 ∧
      arrivalTime ctxW 480 0 1 + (stopAt ctxW 1).service_time + ctxW.tm 1 ctxW.depot ≤
        ctxW.window.2 ∧
      arrivalTime ctxW 480 0 1 + (stopAt ctxW 1).service_time + ctxW.tm 1 ctxW.depot -
        ctxW.window.1 ≤ ctxW.maxDurMin) ∧
    (∃ b, findBest ctxW2 0 480 0 [1] = some b ∧ b ∈ [1]) :=
  ⟨⟨(C3_greedy_checks_amended.1 ctxW 0 480 0 1 (by decide) (by decide)).1 10000
      (by decide),
    (C3_greedy_checks_amended.1 ctxW 0 480 0 1 (by decide) (by decide)).2.1,
    (C3_greedy_checks_amended.1 ctxW 0 480 0 1 (by decide) (by decide)).2.2⟩,
   C3_greedy_checks_amended.2 ctxW2 0 480 0 [1] (by decide) (by decide)
     (by decide)⟩

/-- C4 counterexample: for 30 stops the advisor suggests 1 vehicle
    (`int(30/25 + 0.5) = 1`), while ⌈30/25⌉ clamped to [1,50] is 2. -/
theorem C4_counterexample :
    (auto_configure_parameters 30 none false).n_vehicles = 1 ∧
    specCeilVehicles 30 = 2 ∧
    (auto_configure_parameters 30 none false).n_vehicles ≠ specCeilVehicles 30 := by
  refine ⟨by decide, by decide, by decide⟩

/-- C4 amended: the suggested vehicle count is stops/25 rounded half-up
    (`⌊stops/25 + 1/2⌋`), clamped to [1, 50] — not the ceiling. -/
theorem C4_vehicle_count_amended (n : Nat) (demands : Option (List ℚ)) (tw : Bool) :
    (auto_configure_parameters n demands tw).n_vehicles =
      max 1 (min 50 ((2 * n + 25) / 50)) := by
  have h1 : ((n : ℚ) / 25 + 1 / 2) = ((2 * n + 25 : ℕ) : ℚ) / ((50 : ℕ) : ℚ) := by
    push_cast
    ring
  show max 1 (min 50 ⌊(n : ℚ) / 25 + 1 / 2⌋₊) = _
  rw [h1, Nat.floor_div_nat, Nat.floor_natCast]

/-- C5: structural edge cases are result values: fewer than two stops and
    fewer than one vehicle give immediate infeasibility results with the
    corresponding reasons, and a demand column summing to zero disables the
    capacity dimension even when a capacity was requested. -/
theorem C5_structural_edge_cases (solve : OrtoolsModel → Option (List (List Nat)))
    (df : List Stop) (dm tm : Nat → Nat → ℚ) (v : Nat) (cap dur : Option ℚ)
    (w : ℤ × ℤ) :
    (df.length < 2 →
      run_ortools_solution solve df dm tm v cap dur w =
        ⟨[], 0, 0, [], 0, some "Not enough stops to build a route."⟩) ∧
    (2 ≤ df.length → v < 1 →
      run_ortools_solution solve df dm tm v cap dur w =
        ⟨[], 0, 0, [], 0, some "Number of vehicles must be at least 1."⟩) ∧
    (demandSum df = 0 → (mkOrtoolsModel df tm v cap dur w).useCapacity = false) := by
  refine ⟨?_, ?_, ?_⟩
  · intro h
    unfold run_ortools_solution
    rw [if_pos h]
  · intro h2 hv
    unfold run_ortools_solution
    rw [if_neg (by omega), if_pos hv]
  · intro h
    simp [mkOrtoolsModel, h]

theorem C5_witness :
    (run_ortools_solution (fun _ => none) [] matZ matZ 1 none none (480, 1200) =
      ⟨[], 0, 0, [], 0, some "Not enough stops to build a route."⟩) ∧
    (run_ortools_solution (fun _ => none) dfC9 matZ matZ 0 none none (480, 1200) =
      ⟨[], 0, 0, [], 0, some "Number of vehicles must be at least 1."⟩) ∧
    (mkOrtoolsModel dfC3 matZ 1 (some 5) none (480, 1200)).useCapacity = false :=
  ⟨(C5_structural_edge_cases (fun _ => none) [] matZ matZ 1 none none
      (480, 1200)).1 (by decide),
   (C5_structural_edge_cases (fun _ => none) dfC9 matZ matZ 0 none none
      (480, 1200)).2.1 (by decide) (by decide),
   (C5_structural_edge_cases (fun _ => none) dfC3 matZ matZ 1 (some 5) none
      (480, 1200)).2.2 (by decide)⟩

theorem haversine_comm (a b c d : ℝ) :
    haversine_distance a b c d = haversine_distance c d a b := by
  unfold haversine_distance
  have h : ∀ x y : ℝ, Real.sin ((x - y) / 2) ^ 2 = Real.sin ((y - x) / 2) ^ 2 := by
    intro x y
    rw [show (x - y) / 2 = -((y - x) / 2) by ring, Real.sin_neg, neg_sq]
  rw [h (c * (Real.pi / 180)) (a * (Real.pi / 180)),
      h (d * (Real.pi / 180)) (b * (Real.pi / 180)),
      mul_comm (Real.cos (a * (Real.pi / 180))) (Real.cos (c * (Real.pi / 180)))]

/-- C8: for stops within range, the distance matrix is symmetric with zero
    diagonal (off-diagonal entries being the haversine great-circle distance
    with Earth radius 6371 km), and for positive speed the time matrix equals
    the distance matrix × 60 / speed elementwise. -/
theorem C8_matrix_contract (stops : List (ℝ × ℝ)) (speed : ℝ) (i j : Nat)
    (hs : 0 < speed) (hi : i < stops.length) (hj : j < stops.length) :
    build_distance_matrix stops i j = build_distance_matrix stops j i ∧
    build_distance_matrix stops i i = 0 ∧
    (i ≠ j → build_distance_matrix stops i j =
      haversine_distance (stops.getD i (0, 0)).1 (stops.getD i (0, 0)).2
        (stops.getD j (0, 0)).1 (stops.getD j (0, 0)).2) ∧
    build_time_matrix (build_distance_matrix stops) speed i j =
      build_distance_matrix stops i j * 60 / speed := by
  refine ⟨?_, ?_, ?_, ?_⟩
  · by_cases hij : i = j
    · subst hij; rfl
    · unfold build_distance_matrix
      rw [if_pos ⟨hi, hj, hij⟩, if_pos ⟨hj, hi, Ne.symm hij⟩]
      exact haversine_comm _ _ _ _
  · unfold build_distance_matrix
    rw [if_neg (by tauto)]
  · intro hij
    unfold build_distance_matrix
    rw [if_pos ⟨hi, hj, hij⟩]
  · unfold build_time_matrix
    rw [div_mul_eq_mul_div]

theorem C8_witness :
    (0 : ℝ) < 1 ∧
    (build_distance_matrix [(0, 0), (0, 1)] 0 1 =
        build_distance_matrix [(0, 0), (0, 1)] 1 0 ∧
      build_distance_matrix [(0, 0), (0, 1)] 0 0 = 0 ∧
      ((0 : Nat) ≠ 1 → build_distance_matrix [(0, 0), (0, 1)] 0 1 =
        haversine_distance ([(0, 0), (0, 1)].getD 0 (0, 0)).1
          ([((0 : ℝ), (0 : ℝ)), (0, 1)].getD 0 (0, 0)).2
          ([((0 : ℝ), (0 : ℝ)), (0, 1)].getD 1 (0, 0)).1
          ([((0 : ℝ), (0 : ℝ)), (0, 1)].getD 1 (0, 0)).2) ∧
      build_time_matrix (build_distance_matrix [(0, 0), (0, 1)]) 1 0 1 =
        build_distance_matrix [(0, 0), (0, 1)] 0 1 * 60 / 1) :=
  ⟨by norm_num,
   C8_matrix_contract [(0, 0), (0, 1)] 1 0 1 (by norm_num) (by norm_num) (by norm_num)⟩

theorem scenario_chain (m : OrtoolsModel)
    (hT : ∀ a b, 0 ≤ m.transit a b)
    (hT1 : ∀ a, a ≠ 1 → (60 : ℤ) ≤ m.transit a 1)
    (hW1 : ∀ t : ℤ, windowOkNode m 1 t → (t : ℚ) ≤ 490) :
    ∀ (ns : List Nat) (ts : List ℤ),
      TransitsOk m ns ts → List.Forall₂ (windowOkNode m) ns ts →
      (∀ t0, ts.head? = some t0 → 480 ≤ t0) →
      ns.head? ≠ some 1 → 1 ∉ ns.tail := by
  intro ns
  induction ns with
  | nil => intro ts _ _ _ _; simp
  | cons a rest ih =>
    intro ts hTr hFa hhead hne
    cases rest with
    | nil => simp
    | cons b r =>
      cases ts with
      | nil => simp [TransitsOk] at hTr
      | cons t ts2 =>
        cases ts2 with
        | nil => simp [TransitsOk] at hTr
        | cons u us =>
          have hTr' : 0 ≤ t ∧ t ≤ m.maxRouteDuration ∧ t + m.transit a b ≤ u ∧
              u ≤ t + m.transit a b + m.maxRouteDuration ∧
              TransitsOk m (b :: r) (u :: us) := hTr
          obtain ⟨h0t, hmax, hstep, hslack, hrec⟩ := hTr'
          rcases hFa with _ | ⟨wa, hFa2⟩
          have ht480 : 480 ≤ t := hhead t rfl
          have hu480 : 480 ≤ u := by
            have := hT a b
            omega
          by_cases hb : b = 1
          · subst hb
            have hane : a ≠ 1 := by simpa using hne
            have h60 := hT1 a hane
            have hu540 : (540 : ℤ) ≤ u := by omega
            rcases hFa2 with _ | ⟨w1, hFa3⟩
            have hle := hW1 u w1
            have hcast : (540 : ℚ) ≤ (u : ℚ) := by exact_mod_cast hu540
            linarith
          · have htail : 1 ∉ r := by
              have := ih (u :: us) hrec hFa2
                (by intro t0 ht0; cases ht0; exact hu480)
                (by simpa using hb)
              simpa using this
            simp only [List.tail_cons]
            intro hmem
            rcases List.mem_cons.mp hmem with h1 | h1
            · exact hb h1.symm
            · exact htail h1

theorem scenario_infeasible (v : Nat) (cap dur : Option ℚ) (w : ℤ × ℤ)
    (hw : w.1 = 480) (vs : List (List Nat)) :
    ¬ ValidSolution (mkOrtoolsModel df0 tm0 v cap dur w) vs := by
  rintro ⟨hlen, hperm, hcapc, htime⟩
  set m := mkOrtoolsModel df0 tm0 v cap dur w with hm
  have husetime : m.useTime = true := by
    show (hasTimeWindowData df0 || dur.isSome) = true
    rw [show hasTimeWindowData df0 = true from by decide]
    simp
  have h1mem : (1 : Nat) ∈ vs.flatten := by
    apply hperm.mem_iff.mpr
    show (1 : Nat) ∈ (List.range m.n).filter fun i => i != m.depot
    rw [show m.n = 3 from rfl, show m.depot = 0 from rfl]
    decide
  obtain ⟨s, hsvs, h1s⟩ := List.mem_flatten.mp h1mem
  obtain ⟨ts, hTr, hFa⟩ := htime husetime s hsvs
  have hserv : ∀ a : Nat, (df0.getD a default).service_time = 0 := by
    intro a
    match a with
    | 0 => rfl
    | 1 => rfl
    | 2 => rfl
    | n + 3 => rfl
  have htrans : ∀ a b, m.transit a b = if a = b then 0 else 60 := by
    intro a b
    show truncZ (tm0 a b) + truncZ ((df0.getD a default).service_time) = _
    rw [hserv a]
    by_cases hab : a = b
    · norm_num [tm0, truncZ, hab]
    · norm_num [tm0, truncZ, hab]
  have hT : ∀ a b, 0 ≤ m.transit a b := by
    intro a b
    rw [htrans]
    by_cases hab : a = b <;> simp [hab]
  have hT1 : ∀ a, a ≠ 1 → (60 : ℤ) ≤ m.transit a 1 := by
    intro a ha
    rw [htrans, if_neg ha]
  have hW1 : ∀ t : ℤ, windowOkNode m 1 t → (t : ℚ) ≤ 490 := by
    intro t h
    have hred : windowOkNode m 1 t = ((t : ℚ) ≤ 490) := rfl
    rwa [hred] at h
  have hstart : ∀ t0, ts.head? = some t0 → 480 ≤ t0 := by
    intro t0 ht0
    cases ts with
    | nil => cases ht0
    | cons t tsr =>
      cases ht0
      rcases hFa with _ | ⟨wa, _⟩
      have hred : windowOkNode m m.depot t0 = (m.window.1 ≤ t0 ∧ t0 ≤ m.window.2) := rfl
      rw [hred] at wa
      have hwin : m.window.1 = 480 := by
        rw [show m.window = w from rfl, hw]
      rw [hwin] at wa
      exact wa.1
  have hnot := scenario_chain m hT hT1 hW1 (m.depot :: (s ++ [m.depot])) ts hTr hFa
    hstart (by rw [show m.depot = 0 from rfl]; simp)
  exact hnot (by
    rw [show m.depot = 0 from rfl]
    exact List.mem_append_left _ h1s)

theorem scenario_solver_fails (solve : OrtoolsModel → Option (List (List Nat)))
    (hsound : ∀ m vs, solve m = some vs → ValidSolution m vs)
    (v : Nat) (cap dur : Option ℚ) (w : ℤ × ℤ) (hv : 1 ≤ v) (hw : w.1 = 480) :
    (run_ortools_solution solve df0 tm0 tm0 v cap dur w).error =
      some "No feasible solution found with current constraints" := by
  unfold run_ortools_solution
  rw [if_neg (by decide), if_neg (by omega)]
  cases hs : solve (mkOrtoolsModel df0 tm0 v cap dur w) with
  | none => rfl
  | some vs => exact absurd (hsound _ _ hs) (scenario_infeasible v cap dur w hw vs)

theorem transitsOk_cons (m : OrtoolsModel) (a b : Nat) (ns : List Nat) (t u : ℤ)
    (ts : List ℤ) (h1 : 0 ≤ t) (h2 : t ≤ m.maxRouteDuration)
    (h3 : t + m.transit a b ≤ u) (h4 : u ≤ t + m.transit a b + m.maxRouteDuration)
    (h5 : TransitsOk m (b :: ns) (u :: ts)) :
    TransitsOk m (a :: b :: ns) (t :: u :: ts) :=
  ⟨h1, h2, h3, h4, h5⟩

theorem transitsOk_single (m : OrtoolsModel) (a : Nat) (t : ℤ)
    (h1 : 0 ≤ t) (h2 : t ≤ m.maxRouteDuration) : TransitsOk m [a] [t] :=
  ⟨h1, h2⟩

/-- C1: the claim fails on the code.  Stage 4 only flips the config flag
    `use_time_windows`, which `try_solve` never passes to the optimizer — the
    optimizer re-derives time windows from the dataframe.  Hence for the
    scenario `df0` whose only infeasibility is customer 1's unmeetable time
    window, every sound search oracle fails at every stage (including the
    final one) and the controller returns the all-failed marker; yet the same
    scenario with the customer windows actually removed (`df0noTW`) is
    satisfiable under exactly the final stage's parameters. -/
theorem C1_final_stage_still_enforces_time_windows :
    (∀ solve : OrtoolsModel → Option (List (List Nat)),
      (∀ m vs, solve m = some vs → ValidSolution m vs) →
      (run_vrp_with_auto_relaxation (ortoolsRunner solve) df0 tm0 tm0 cfg0).info =
        RelaxInfo.allFailed) ∧
    ValidSolution (mkOrtoolsModel df0noTW tm0 1 none (some 16) (480, 1380)) [[1, 2]] := by
  constructor
  · intro solve hsound
    have hf := scenario_solver_fails solve hsound
    have hgen : ∀ a : SolveArgs, a.n_vehicles = 1 → a.window.1 = 480 →
        (ortoolsRunner solve df0 tm0 tm0 a).error =
          some "No feasible solution found with current constraints" := by
      intro a h1 h2
      show (run_ortools_solution solve df0 tm0 tm0 a.n_vehicles a.capacity a.maxDur
        a.window).error = _
      rw [h1]
      exact hf 1 a.capacity a.maxDur a.window le_rfl h2
    unfold run_vrp_with_auto_relaxation relaxStage3 relaxFinalStage
    simp only []
    simp only [cfg0, capTruthy, mkArgs, Option.getD_some, Bool.false_and,
      Bool.false_eq_true, if_false]
    rw [hgen ⟨1, none, some 10, (480, 1200)⟩ rfl rfl]
    repeat rw [hgen _ rfl rfl]
    simp
  · refine ⟨rfl, List.Perm.refl _, ?_, ?_⟩
    · intro h
      exact absurd h (by decide)
    · intro _ s hs
      have hseq : s = [1, 2] := by simpa using hs
      subst hseq
      refine ⟨[480, 540, 600, 660], ?_, ?_⟩
      · apply transitsOk_cons _ _ _ _ _ _ _ (by decide) (by decide) (by decide) (by decide)
        apply transitsOk_cons _ _ _ _ _ _ _ (by decide) (by decide) (by decide) (by decide)
        apply transitsOk_cons _ _ _ _ _ _ _ (by decide) (by decide) (by decide) (by decide)
        exact transitsOk_single _ _ _ (by decide) (by decide)
      · refine List.Forall₂.cons ?_ (List.Forall₂.cons ?_ (List.Forall₂.cons ?_
          (List.Forall₂.cons ?_ List.Forall₂.nil)))
        · exact (by decide : (480 : ℤ) ≤ 480 ∧ (480 : ℤ) ≤ 1380)
        · exact trivial
        · exact trivial
        · exact (by decide : (480 : ℤ) ≤ 660 ∧ (660 : ℤ) ≤ 1380)

theorem C1_witness :
    ((run_vrp_with_auto_relaxation (ortoolsRunner fun _ => none) df0 tm0 tm0
        cfg0).info = RelaxInfo.allFailed) ∧
    ValidSolution (mkOrtoolsModel df0noTW tm0 1 none (some 16) (480, 1380)) [[1, 2]] :=
  ⟨C1_final_stage_still_enforces_time_windows.1 (fun _ => none)
      (fun _ _ h => Option.noConfusion h),
   C1_final_stage_still_enforces_time_windows.2⟩

/-- Order on optional numeric parameters where `none` means the constraint is
    absent (effectively +∞). -/
def optLEinf (a b : Option ℚ) : Prop :=
  match a, b with
  | _, none => True
  | none, some _ => False
  | some x, some y => x ≤ y

instance (a b : Option ℚ) : Decidable (optLEinf a b) :=
  match a, b with
  | some _, none => Decidable.isTrue trivial
  | none, none => Decidable.isTrue trivial
  | none, some _ => Decidable.isFalse fun h => h
  | some x, some y => inferInstanceAs (Decidable (x ≤ y))

/-- "No more restrictive": capacity, maximum duration and depot closing time
    (window end) do not decrease from one optimizer invocation to the next. -/
def argsLE (a b : SolveArgs) : Prop :=
  optLEinf a.capacity b.capacity ∧ optLEinf a.maxDur b.maxDur ∧
    a.window.2 ≤ b.window.2

instance : DecidableRel argsLE := fun _ _ =>
  inferInstanceAs (Decidable (_ ∧ _ ∧ _))

/-- The claim as stated: across the successive attempted stages, the
    parameters passed to the optimizer only relax. -/
def claimMonotone (l : List SolveArgs) : Prop := l.Chain' argsLE

/-- Executable check of `claimMonotone`. -/
def chainArgsLE : List SolveArgs → Bool
  | a :: b :: r => decide (argsLE a b) && chainArgsLE (b :: r)
  | _ => true

theorem chainArgsLE_iff : ∀ l, chainArgsLE l = true ↔ claimMonotone l := by
  intro l
  match l with
  | [] => simp [chainArgsLE, claimMonotone]
  | [a] => simp [chainArgsLE, claimMonotone]
  | a :: b :: r =>
    rw [claimMonotone, List.chain'_cons]
    simp only [chainArgsLE, Bool.and_eq_true, decide_eq_true_eq]
    exact and_congr Iff.rfl (chainArgsLE_iff (b :: r))

/-- C2 counterexample: with capacity 10 in use and a solver that always
    reports infeasibility, the successive capacities passed to the optimizer
    are 10, 15, 20, 30, then 10 again (the restoration before the duration
    stage), 10, 10, and finally none — the ×3.0 → ×1.0 step decreases, so the
    attempted-stage parameters are not monotone. -/
theorem C2_counterexample :
    ((run_vrp_with_auto_relaxation alwaysFail [] matZ matZ cfgC2).attempts.map
        SolveArgs.capacity =
      [some 10, some 15, some 20, some 30, some 10, some 10, some 10, none]) ∧
    ¬ claimMonotone (run_vrp_with_auto_relaxation alwaysFail [] matZ matZ
        cfgC2).attempts := by
  constructor
  · decide
  · intro hc
    have hb := (chainArgsLE_iff _).mpr hc
    exact absurd hb (by decide)

theorem optLEinf_refl (a : Option ℚ) : optLEinf a a := by
  cases a
  · exact trivial
  · exact le_refl _

/-- C2 amended: along the attempted stages, the maximum route duration and
    the depot closing time never decrease, and the capacity passed to the
    optimizer never decreases either — except at the single transition out of
    the capacity-relaxation stage, where the original capacity is restored
    (and at the final stage capacity is disabled, i.e. +∞). -/
theorem C2_relaxation_monotone_amended (runner : Runner) (df : List Stop)
    (dm tm : Nat → Nat → ℚ) (cfg : RelaxConfig) (h : ℚ) (cl : ℤ)
    (hdur : cfg.max_route_duration_hours = some h)
    (hcl : cfg.depot_close_hour = some cl) (hcl23 : cl ≤ 23)
    (hwin : cfg.depot_time_window = some (cfg.depot_open_hour.getD 8 * 60, cl * 60))
    (hcap : ∀ x, cfg.vehicle_capacity = some x → 0 ≤ x) :
    (run_vrp_with_auto_relaxation runner df dm tm cfg).attempts.Chain'
      (fun a b => optLEinf a.maxDur b.maxDur ∧ a.window.2 ≤ b.window.2 ∧
        (optLEinf a.capacity b.capacity ∨
          b.capacity = (mkArgs cfg).capacity)) := by
  have hchainT : cfg.use_capacity = true → capTruthy cfg.vehicle_capacity = true →
      List.Chain'
        (fun a b => optLEinf a.maxDur b.maxDur ∧ a.window.2 ≤ b.window.2 ∧
          (optLEinf a.capacity b.capacity ∨
            b.capacity = (mkArgs cfg).capacity))
        [mkArgs cfg,
         mkArgs { cfg with vehicle_capacity := some (cfg.vehicle_capacity.getD 0 * 1.5) },
         mkArgs { cfg with vehicle_capacity := some (cfg.vehicle_capacity.getD 0 * 2) },
         mkArgs { cfg with vehicle_capacity := some (cfg.vehicle_capacity.getD 0 * 3) },
         ⟨cfg.n_vehicles, if cfg.use_capacity then some (cfg.vehicle_capacity.getD 0) else none,
           some (cfg.max_route_duration_hours.getD 9 + 2),
           (cfg.depot_open_hour.getD 8 * 60, min 23 (cfg.depot_close_hour.getD 18 + 2) * 60)⟩,
         ⟨cfg.n_vehicles, if cfg.use_capacity then some (cfg.vehicle_capacity.getD 0) else none,
           some (cfg.max_route_duration_hours.getD 9 + 4),
           (cfg.depot_open_hour.getD 8 * 60, min 23 (cfg.depot_close_hour.getD 18 + 4) * 60)⟩,
         ⟨cfg.n_vehicles, if cfg.use_capacity then some (cfg.vehicle_capacity.getD 0) else none,
           some (cfg.max_route_duration_hours.getD 9 + 6),
           (cfg.depot_open_hour.getD 8 * 60, min 23 (cfg.depot_close_hour.getD 18 + 6) * 60)⟩,
         ⟨cfg.n_vehicles, none,
           some (cfg.max_route_duration_hours.getD 9 + 6),
           (cfg.depot_open_hour.getD 8 * 60, min 23 (cfg.depot_close_hour.getD 18 + 6) * 60)⟩] := by
    intro huse htr
    obtain ⟨x, hx⟩ : ∃ x, cfg.vehicle_capacity = some x := by
      cases hv : cfg.vehicle_capacity
      · rw [hv] at htr; cases htr
      · exact ⟨_, rfl⟩
    have hx0 : 0 ≤ x := hcap x hx
    simp only [List.chain'_cons, List.chain'_singleton, and_true]
    refine ⟨⟨?_, ?_, ?_⟩, ⟨?_, ?_, ?_⟩, ⟨?_, ?_, ?_⟩, ⟨?_, ?_, ?_⟩, ⟨?_, ?_, ?_⟩,
      ⟨?_, ?_, ?_⟩, ⟨?_, ?_, ?_⟩⟩
    · simp [mkArgs, optLEinf_refl]
    · simp [mkArgs]
    · left
      simp only [mkArgs, huse, if_true, hx, Option.getD_some, optLEinf]
      linarith
    · simp [mkArgs, optLEinf_refl]
    · simp [mkArgs]
    · left
      simp only [mkArgs, huse, if_true, hx, Option.getD_some, optLEinf]
      linarith
    · simp [mkArgs, optLEinf_refl]
    · simp [mkArgs]
    · left
      simp only [mkArgs, huse, if_true, hx, Option.getD_some, optLEinf]
      linarith
    · simp only [mkArgs, hdur, Option.getD_some, optLEinf]
      linarith
    · simp only [mkArgs, hwin, hcl, Option.getD_some]
      omega
    · right
      simp [mkArgs, huse, hx]
    · simp only [hdur, Option.getD_some, optLEinf]
      linarith
    · simp only [hcl, Option.getD_some]
      omega
    · left
      simp [optLEinf_refl]
    · simp only [hdur, Option.getD_some, optLEinf]
      linarith
    · simp only [hcl, Option.getD_some]
      omega
    · left
      simp [optLEinf_refl]
    · simp only [hdur, Option.getD_some, optLEinf]
      linarith
    · simp only [hcl, Option.getD_some]
      omega
    · left
      simp [optLEinf]
  have hchainF : List.Chain'
      (fun a b => optLEinf a.maxDur b.maxDur ∧ a.window.2 ≤ b.window.2 ∧
        (optLEinf a.capacity b.capacity ∨
          b.capacity = (mkArgs cfg).capacity))
      [mkArgs cfg,
       ⟨cfg.n_vehicles, if cfg.use_capacity then cfg.vehicle_capacity else none,
         some (cfg.max_route_duration_hours.getD 9 + 2),
         (cfg.depot_open_hour.getD 8 * 60, min 23 (cfg.depot_close_hour.getD 18 + 2) * 60)⟩,
       ⟨cfg.n_vehicles, if cfg.use_capacity then cfg.vehicle_capacity else none,
         some (cfg.max_route_duration_hours.getD 9 + 4),
         (cfg.depot_open_hour.getD 8 * 60, min 23 (cfg.depot_close_hour.getD 18 + 4) * 60)⟩,
       ⟨cfg.n_vehicles, if cfg.use_capacity then cfg.vehicle_capacity else none,
         some (cfg.max_route_duration_hours.getD 9 + 6),
         (cfg.depot_open_hour.getD 8 * 60, min 23 (cfg.depot_close_hour.getD 18 + 6) * 60)⟩,
       ⟨cfg.n_vehicles, none,
         some (cfg.max_route_duration_hours.getD 9 + 6),
         (cfg.depot_open_hour.getD 8 * 60, min 23 (cfg.depot_close_hour.getD 18 + 6) * 60)⟩] := by
    simp only [List.chain'_cons, List.chain'_singleton, and_true]
    refine ⟨⟨?_, ?_, ?_⟩, ⟨?_, ?_, ?_⟩, ⟨?_, ?_, ?_⟩, ⟨?_, ?_, ?_⟩⟩
    · simp only [mkArgs, hdur, Option.getD_some, optLEinf]
      linarith
    · simp only [mkArgs, hwin, hcl, Option.getD_some]
      omega
    · left
      simp [mkArgs, optLEinf_refl]
    · simp only [hdur, Option.getD_some, optLEinf]
      linarith
    · simp only [hcl, Option.getD_some]
      omega
    · left
      simp [optLEinf_refl]
    · simp only [hdur, Option.getD_some, optLEinf]
      linarith
    · simp only [hcl, Option.getD_some]
      omega
    · left
      simp [optLEinf_refl]
    · simp only [hdur, Option.getD_some, optLEinf]
      linarith
    · simp only [hcl, Option.getD_some]
      omega
    · left
      simp [optLEinf]
  unfold run_vrp_with_auto_relaxation
  simp only []
  split
  · simp
  · split
    · rename_i hg
      rw [Bool.and_eq_true] at hg
      obtain ⟨huse, htr⟩ := hg
      have hcT := hchainT huse htr
      split
      · exact hcT.take 2
      · split
        · exact hcT.take 3
        · split
          · exact hcT.take 4
          · unfold relaxStage3
            simp only []
            split
            · exact hcT.take 5
            · split
              · exact hcT.take 6
              · split
                · exact hcT.take 7
                · unfold relaxFinalStage
                  simp only []
                  split
                  · exact hcT.take 8
                  · exact hcT.take 8
    · have hcF := hchainF
      unfold relaxStage3
      simp only []
      split
      · exact hcF.take 2
      · split
        · exact hcF.take 3
        · split
          · exact hcF.take 4
          · unfold relaxFinalStage
            simp only []
            split
            · exact hcF.take 5
            · exact hcF.take 5

theorem C2_witness :
    (run_vrp_with_auto_relaxation alwaysFail [] matZ matZ cfgC2).attempts.Chain'
      (fun a b => optLEinf a.maxDur b.maxDur ∧ a.window.2 ≤ b.window.2 ∧
        (optLEinf a.capacity b.capacity ∨ b.capacity = (mkArgs cfgC2).capacity)) := by
  apply C2_relaxation_monotone_amended alwaysFail [] matZ matZ cfgC2 9 18 rfl rfl
    (by decide) rfl
  intro x hx
  have hx10 : some (10 : ℚ) = some x := hx
  obtain rfl : (10 : ℚ) = x := by simpa using hx10
  norm_num

theorem C6_witness :
    [0, 1, 2, 0].head? = some (dfC9.findIdx Stop.is_depot) ∧
    ((1 : Nat) < dfC9.length ∧ (dfC9.getD 1 default).is_depot = false ∧
      (1 : Nat) ≠ dfC9.findIdx Stop.is_depot) ∧
    (((run_naive_solution dfC9 matZ matZ 1 none none (480, 1200)).routes.map
        interiorOf).flatten).Nodup :=
  ⟨((C6_route_invariants dfC9 matZ matZ 1 none none (480, 1200) (480, 1200)
      (fun _ => none) (by decide) (fun _ _ h => Option.noConfusion h)).1
      [0, 1, 2, 0] (by decide)).1,
   ((C6_route_invariants dfC9 matZ matZ 1 none none (480, 1200) (480, 1200)
      (fun _ => none) (by decide) (fun _ _ h => Option.noConfusion h)).1
      [0, 1, 2, 0] (by decide)).2.2 1 (by decide),
   (C6_route_invariants dfC9 matZ matZ 1 none none (480, 1200) (480, 1200)
      (fun _ => none) (by decide) (fun _ _ h => Option.noConfusion h)).2.1⟩

theorem C9_witness :
    (run_naive_solution dfC9 matZ matZ 1 none none (480, 1200)).error = none :=
  C9_no_error_on_partial.1 dfC9 matZ matZ 1 none none (480, 1200) (by decide)
    (by decide)

theorem C10_witness :
    ((run_naive_solution dfC9 matZ matZ 1 (some 3) none (480, 1200)).n_vehicles_used =
      ((run_naive_solution dfC9 matZ matZ 1 (some 3) none (480, 1200)).routes.filter
        fun r => decide (2 < r.length)).length) ∧
    (run_ortools_solution (fun _ => none) dfC9 matZ matZ 1 none none
        (480, 1200)).n_vehicles_used =
      (run_ortools_solution (fun _ => none) dfC9 matZ matZ 1 none none
        (480, 1200)).routes.length :=
  ⟨(C10_empty_route_difference.1 dfC9 matZ matZ 1 (some 3) none (480, 1200)).1,
   (C10_empty_route_difference.2.1 (fun _ => none) dfC9 matZ matZ 1 none none
      (480, 1200)).2⟩
